import Mathlib

/-!
Shallow embedding of `openxla/runtime/nvgpu/cudnn_module.cpp` (the cuDNN
custom module of the openxla-nvgpu runtime) and proofs about its
tensor-argument creation, stride derivation, VM list loading, type
registration and module-state lifecycle.
-/

set_option autoImplicit false

/-- IREE status codes relevant to this module (a fragment of the
`iree_status_code_t` enumeration). -/
inductive StatusCode where
  | ok
  | invalidArgument
  | outOfRange
  | notFound
  | unavailable
  | internal
  deriving DecidableEq, Repr

/-- An IREE `Status`: a code together with a message, as constructed by
`Status(StatusCode::k..., "message")` in the C++ sources. -/
structure Status where
  code : StatusCode
  message : String
  deriving DecidableEq, Repr

/-- The OK status (`iree_ok_status()` / `OkStatus()`). -/
def okStatus : Status := ⟨StatusCode.ok, ""⟩

/-- First valid cuDNN data type code, `CUDNN_DATA_FLOAT`.  The numeric value
comes from the external cuDNN header (`cudnnDataType_t` enumerator). -/
def CUDNN_DATA_FLOAT : Int := 0

/-- Last valid cuDNN data type code, `CUDNN_DATA_FAST_FLOAT_FOR_FP8`.  The
numeric value comes from the external cuDNN header (`cudnnDataType_t`
enumerator). -/
def CUDNN_DATA_FAST_FLOAT_FOR_FP8 : Int := 14

/-- `ToCudnnDataType` from `cudnn_module.cpp`: rejects any dtype code outside
the closed range `[CUDNN_DATA_FLOAT, CUDNN_DATA_FAST_FLOAT_FOR_FP8]` with an
invalid-argument status, otherwise casts the code through. -/
def ToCudnnDataType (dtype : Int) : Except Status Int :=
  if dtype < CUDNN_DATA_FLOAT ∨ dtype > CUDNN_DATA_FAST_FLOAT_FOR_FP8 then
    Except.error ⟨StatusCode.invalidArgument, "unsupported data type"⟩
  else
    Except.ok dtype

/-- An element of an `iree_vm_list_t` as far as this module observes it:
either a value readable as a 64-bit integer, or an element of a different
(non-i64-convertible) type, e.g. a ref object. -/
inductive VmElem where
  | i64 (v : Int)
  | ref
  deriving DecidableEq, Repr

/-- Whether a VM list element is readable as a 64-bit integer. -/
def VmElem.isI64 : VmElem → Bool
  | .i64 _ => true
  | .ref => false

/-- The 64-bit integer payload of a VM list element (junk value `0` for
non-integer elements; only used under an `isI64` hypothesis). -/
def VmElem.val : VmElem → Int
  | .i64 v => v
  | .ref => 0

/-- Modelled from the spec: reading one in-range VM list element as a 64-bit
value succeeds for integer elements and fails with an invalid-argument status
for elements of the wrong type (the VM's list implementation is an external
collaborator; the spec describes its error kinds as
invalid-argument / out-of-range). -/
def VmElem.readAsI64 : VmElem → Except Status Int
  | .i64 v => Except.ok v
  | .ref => Except.error ⟨StatusCode.invalidArgument, "element is not a value type"⟩

/-- `iree_vm_list_size`: the number of elements of the list. -/
def iree_vm_list_size (list : List VmElem) : Nat := list.length

/-- Modelled from the spec: `iree_vm_list_get_value_as(list, i, I64, &value)`
fails with out-of-range for an index past the end and otherwise reads element
`i`, failing with invalid-argument when the element is not coercible to i64. -/
def iree_vm_list_get_value_as (list : List VmElem) (i : Nat) : Except Status Int :=
  match list[i]? with
  | none => Except.error ⟨StatusCode.outOfRange, "index out of range"⟩
  | some e => VmElem.readAsI64 e

/-- Events observable during a `tensor.arg` call: querying the dims list
size, reading dims list element `i`, and invoking the native tensor
constructor. -/
inductive TensorEvent where
  | listSize
  | listRead (i : Nat)
  | nativeCreate
  deriving DecidableEq, Repr

/-- The loop body of `LoadI64Vec`: reads list elements `i, i+1, ...` (indices
ascending, `k` elements in total, exactly the C++
`for (size_t i = 0; i < vector.size(); ++i)` loop), returning the first read
error, or the vector of values.  Also returns the trace of list accesses. -/
def loadI64Go (list : List VmElem) : Nat → Nat → Except Status (List Int) × List TensorEvent
  | _, 0 => (Except.ok [], [])
  | i, k + 1 =>
    match iree_vm_list_get_value_as list i with
    | .error e => (Except.error e, [TensorEvent.listRead i])
    | .ok v =>
      match loadI64Go list (i + 1) k with
      | (.error e, tr) => (Except.error e, TensorEvent.listRead i :: tr)
      | (.ok vs, tr) => (Except.ok (v :: vs), TensorEvent.listRead i :: tr)

/-- `LoadI64Vec` from `cudnn_module.cpp`: sizes the output vector from the
list size, then copies each element out of the list coerced to i64, returning
the first element access error if any. -/
def LoadI64Vec (list : List VmElem) : Except Status (List Int) × List TensorEvent :=
  let n := iree_vm_list_size list
  match loadI64Go list 0 n with
  | (r, tr) => (r, TensorEvent.listSize :: tr)

/-- `GetRowMajorStrides` from `cudnn_module.cpp`, translated literally: a
strides vector of ones of the same length as `dims`, then the loop
`for (int64_t i = dims.size() - 2; i >= 0; --i) strides[i] = dims[i] * strides[i + 1]`
(for `dims.size() < 2` the loop body never runs, matching the C++ unsigned
wrap-around of `dims.size() - 2`). -/
def GetRowMajorStrides (dims : List Int) : List Int :=
  let strides := List.replicate dims.length (1 : Int)
  (List.range (dims.length - 1)).reverse.foldl
    (fun s i => s.set i (dims.getD i 0 * s.getD (i + 1) 0)) strides

/-- The stride rule exactly as the specification words it (for comparison
with `GetRowMajorStrides`): `S[last] = 1` and
`S[i] = D[i+1] * S[i+1]` for `i` from `last-1` down to `0`. -/
def specRowMajorStrides : List Int → List Int
  | [] => []
  | [_] => [1]
  | _ :: d :: rest =>
    let s := specRowMajorStrides (d :: rest)
    d * s.headI :: s

/-- Modelled from the spec: a `CuDNNArgTensor` (declared in
`cudnn_tensor.h`, whose implementation is not under `src/`) is an opaque
tensor description binding dimensions, row-major strides, a caller-supplied
uid, an element data type and an alignment requirement. -/
structure CuDNNArgTensor where
  dims : List Int
  strides : List Int
  uid : Int
  dtype : Int
  alignment : Int
  deriving DecidableEq, Repr

/-- Modelled from the spec: `CuDNNArgTensor::Create(&syms_, dims, strides,
uid, dtype, alignment)` constructs a native tensor-argument object bound to
exactly those five pieces of data (the constructor body lives in
`cudnn_tensor.cpp`, not under `src/`). -/
def CuDNNArgTensor.Create (dims strides : List Int) (uid dtype alignment : Int) :
    CuDNNArgTensor :=
  ⟨dims, strides, uid, dtype, alignment⟩

/-- `CuDNNModuleState::CreateTensorArg` from `cudnn_module.cpp`: validate the
dtype (early return on failure, before any list access), load the dims list
as i64 values (early return on failure, before the native constructor), then
derive strides and call the native tensor-argument constructor.  The second
component is the trace of list accesses and native-constructor invocations. -/
def CreateTensorArg (dtype : Int) (dims : List VmElem) (uid alignment : Int) :
    Except Status CuDNNArgTensor × List TensorEvent :=
  match ToCudnnDataType dtype with
  | .error e => (Except.error e, [])
  | .ok data_type =>
    match LoadI64Vec dims with
    | (.error e, tr) => (Except.error e, tr)
    | (.ok dimensions, tr) =>
      let strides := GetRowMajorStrides dimensions
      (Except.ok (CuDNNArgTensor.Create dimensions strides uid data_type alignment),
       tr ++ [TensorEvent.nativeCreate])

/-- Modelled from the spec: `CuDNNOpaqueTensor::describe()` renders a
human-readable one-line (newline-free) description of the tensor
(its implementation lives in `cudnn_tensor.cpp`, not under `src/`). -/
def CuDNNArgTensor.describe (t : CuDNNArgTensor) : String :=
  "dims: " ++ toString t.dims ++ ", strides: " ++ toString t.strides ++
    ", uid: " ++ toString t.uid ++ ", alignment: " ++ toString t.alignment

/-- `CuDNNModuleState::PrintTensorDebug` from `cudnn_module.cpp`: one
`fprintf(stderr, "CuDNNArgTensor: %s\n", desc)` write and an unconditional
`OkStatus()` return.  The input type `CuDNNArgTensor` encodes the documented
precondition that the reference is of the argument kind (the code performs an
unchecked downcast).  The second component is the sequence of stderr
writes. -/
def PrintTensorDebug (tensor : CuDNNArgTensor) : Status × List String :=
  let desc := CuDNNArgTensor.describe tensor
  (okStatus, ["CuDNNArgTensor: " ++ desc ++ "\n"])

/-- The null sentinel `IREE_VM_REF_TYPE_NULL` of the VM ref-type registry
(`type = 0` means "not registered yet"). -/
def IREE_VM_REF_TYPE_NULL : Nat := 0

/-- An `iree_vm_ref_type_descriptor_t`: the registered type id (null sentinel
when unregistered), the display name, the reference-counter field offset and
the destroy callback (callbacks and offsets are modelled as opaque
numbers). -/
structure TypeDescriptor where
  type : Nat
  type_name : String
  offsetof_counter : Nat
  destroy : Nat
  deriving DecidableEq, Repr

/-- The per-type data `RegisterType<T>` draws from its type parameter:
`T::offsetof_counter()` and `T::DirectDestroy`. -/
structure TypeInfo where
  offsetof_counter : Nat
  DirectDestroy : Nat
  deriving DecidableEq, Repr

/-- Modelled from the spec: `iree_vm_ref_register_type` (the host VM's
reference-type system, an external collaborator) registers the descriptor and
marks it registered by assigning a non-null type id, leaving the populated
fields in place. -/
def iree_vm_ref_register_type (d : TypeDescriptor) : Status × TypeDescriptor :=
  (okStatus, { d with type := 1 })

/-- `RegisterType<T>` from `cudnn_module.cpp`: when the descriptor is in the
null sentinel state, populate its name, counter offset and destroy callback
and register it with the VM; otherwise return ok immediately.  The third
component counts the `iree_vm_ref_register_type` calls made. -/
def RegisterType (T : TypeInfo) (d : TypeDescriptor) (type_name : String) :
    Status × TypeDescriptor × Nat :=
  if d.type = IREE_VM_REF_TYPE_NULL then
    let d1 : TypeDescriptor :=
      { d with type_name := type_name,
               offsetof_counter := T.offsetof_counter,
               destroy := T.DirectDestroy }
    match iree_vm_ref_register_type d1 with
    | (s, d2) => (s, d2, 1)
  else
    (okStatus, d, 0)

/-- Native-library lifecycle events observable across module-state creation
and destruction: the dynamic-symbol initialization call, `cudnnCreate`, and
`cudnnDestroy` on a given handle. -/
inductive LifeEvent where
  | symsInit
  | cudnnCreate
  | cudnnDestroy (handle : Nat)
  deriving DecidableEq, Repr

/-- `CuDNNModuleState` from `cudnn_module.cpp`: owns the resolved dynamic
symbols and exactly one cuDNN handle (both modelled as opaque numbers). -/
structure CuDNNModuleState where
  syms : Nat
  handle : Nat
  deriving DecidableEq, Repr

/-- `CuDNNModuleState::~CuDNNModuleState` from `cudnn_module.cpp`: a single
`cudnnDestroy(handle_)` call through the held symbols (its failure is checked
fatally, not propagated).  Returns the native calls it issues. -/
def CuDNNModuleState.destructor (s : CuDNNModuleState) : List LifeEvent :=
  [LifeEvent.cudnnDestroy s.handle]

/-- `CuDNNModule::CreateState` from `cudnn_module.cpp`: initialize the
dynamic symbols (early return of the failing status), then `cudnnCreate` a
handle (early return of the failing status), then construct the state owning
both.  The outcomes of the two external native calls are supplied as
parameters; the second component is the trace of native calls attempted. -/
def CreateState (symsResult : Except Status Nat) (createResult : Except Status Nat) :
    Except Status CuDNNModuleState × List LifeEvent :=
  match symsResult with
  | .error e => (Except.error e, [LifeEvent.symsInit])
  | .ok syms =>
    match createResult with
    | .error e => (Except.error e, [LifeEvent.symsInit, LifeEvent.cudnnCreate])
    | .ok handle =>
      (Except.ok ⟨syms, handle⟩, [LifeEvent.symsInit, LifeEvent.cudnnCreate])

/-- A full module-state lifecycle for one creation attempt: the native calls
of `CreateState`, followed, when creation succeeded, by the destructor's
native calls when the state is torn down. -/
def stateLifecycle (symsResult createResult : Except Status Nat) : List LifeEvent :=
  match CreateState symsResult createResult with
  | (.ok s, tr) => tr ++ CuDNNModuleState.destructor s
  | (.error _, tr) => tr

/-- Structural rendering of the `LoadI64Vec` loop, carrying the index of the
element currently being read; equal to `loadI64Go` by
`loadI64Go_eq_loadAux`. -/
def loadAux (i : Nat) : List VmElem → Except Status (List Int) × List TensorEvent
  | [] => (Except.ok [], [])
  | e :: t =>
    match VmElem.readAsI64 e with
    | .error st => (Except.error st, [TensorEvent.listRead i])
    | .ok v =>
      match loadAux (i + 1) t with
      | (.error st, tr) => (Except.error st, TensorEvent.listRead i :: tr)
      | (.ok vs, tr) => (Except.ok (v :: vs), TensorEvent.listRead i :: tr)

theorem loadI64Go_eq_loadAux (list : List VmElem) :
    ∀ (rest : List VmElem) (i : Nat), list.drop i = rest →
      loadI64Go list i rest.length = loadAux i rest := by
  intro rest
  induction rest with
  | nil => intro i _; rfl
  | cons e t ih =>
    intro i hdrop
    have hget : list[i]? = some e := by
      have h0 : (list.drop i)[0]? = some e := by simp [hdrop]
      rwa [List.getElem?_drop, Nat.add_zero] at h0
    have hdrop1 : list.drop (i + 1) = t := by
      have h1 : List.drop 1 (list.drop i) = t := by rw [hdrop]; rfl
      rwa [List.drop_drop] at h1
    show loadI64Go list i (t.length + 1) = loadAux i (e :: t)
    simp only [loadI64Go, loadAux, iree_vm_list_get_value_as, hget, ih (i + 1) hdrop1]

theorem loadI64Vec_eq (list : List VmElem) :
    LoadI64Vec list =
      ((loadAux 0 list).fst, TensorEvent.listSize :: (loadAux 0 list).snd) := by
  have h := loadI64Go_eq_loadAux list list 0 (List.drop_zero list)
  rcases hx : loadAux 0 list with ⟨r, tr⟩
  rw [hx] at h
  simp only [LoadI64Vec, iree_vm_list_size, h, hx]

theorem loadAux_all_ok (l : List VmElem) :
    ∀ i : Nat, (∀ e ∈ l, VmElem.isI64 e = true) →
      loadAux i l = (Except.ok (l.map VmElem.val),
        (List.range' i l.length).map TensorEvent.listRead) := by
  induction l with
  | nil => intro i _; simp [loadAux]
  | cons e t ih =>
    intro i hall
    have he : VmElem.isI64 e = true := hall e (List.mem_cons_self e t)
    cases e with
    | ref => simp [VmElem.isI64] at he
    | i64 v =>
      have ht : ∀ x ∈ t, VmElem.isI64 x = true := fun x hx =>
        hall x (List.mem_cons_of_mem _ hx)
      simp only [loadAux, VmElem.readAsI64]
      rw [ih (i + 1) ht]
      simp [List.range'_succ, VmElem.val]

theorem loadAux_first_error (l : List VmElem) :
    ∀ (i j : Nat) (e : VmElem) (s : Status),
      (l.take j).all VmElem.isI64 = true →
      l[j]? = some e →
      VmElem.readAsI64 e = Except.error s →
      (loadAux i l).fst = Except.error s := by
  induction l with
  | nil => intro i j e s _ hj _; simp at hj
  | cons a t ih =>
    intro i j e s htake hj hread
    cases j with
    | zero =>
      have ha : a = e := by simpa using hj
      subst ha
      simp [loadAux, hread]
    | succ m =>
      rw [List.take_succ_cons, List.all_cons, Bool.and_eq_true] at htake
      have hj2 : t[m]? = some e := by simpa using hj
      cases a with
      | ref => simp [VmElem.isI64] at htake
      | i64 v =>
        have hrec := ih (i + 1) m e s htake.2 hj2 hread
        simp only [loadAux, VmElem.readAsI64]
        rcases hx : loadAux (i + 1) t with ⟨r, tr⟩
        rw [hx] at hrec
        cases r with
        | error st => simpa using hrec
        | ok vs => simp at hrec

theorem loadAux_ref_error (l : List VmElem) :
    ∀ i : Nat, VmElem.ref ∈ l →
      (loadAux i l).fst =
        Except.error ⟨StatusCode.invalidArgument, "element is not a value type"⟩ := by
  induction l with
  | nil => intro i h; simp at h
  | cons a t ih =>
    intro i h
    cases a with
    | ref => simp [loadAux, VmElem.readAsI64]
    | i64 v =>
      have ht : VmElem.ref ∈ t := by
        rcases List.mem_cons.mp h with h1 | h1
        · exact absurd h1 (by simp)
        · exact h1
      have hrec := ih (i + 1) ht
      simp only [loadAux, VmElem.readAsI64]
      rcases hx : loadAux (i + 1) t with ⟨r, tr⟩
      rw [hx] at hrec
      cases r with
      | error st => simpa using hrec
      | ok vs => simp at hrec

theorem loadAux_no_native (l : List VmElem) :
    ∀ i : Nat, TensorEvent.nativeCreate ∉ (loadAux i l).snd := by
  induction l with
  | nil => intro i; simp [loadAux]
  | cons a t ih =>
    intro i
    cases ha : VmElem.readAsI64 a with
    | error st => simp [loadAux, ha]
    | ok v =>
      have hrec := ih (i + 1)
      rcases hx : loadAux (i + 1) t with ⟨r, tr⟩
      rw [hx] at hrec
      cases r with
      | error st => simp only [loadAux, ha, hx]; simpa using hrec
      | ok vs => simp only [loadAux, ha, hx]; simpa using hrec

theorem loadI64Vec_ref_error (dims : List VmElem) (h : VmElem.ref ∈ dims) :
    (LoadI64Vec dims).fst =
      Except.error ⟨StatusCode.invalidArgument, "element is not a value type"⟩ := by
  rw [loadI64Vec_eq]
  exact loadAux_ref_error dims 0 h

theorem loadI64Vec_no_native (dims : List VmElem) :
    TensorEvent.nativeCreate ∉ (LoadI64Vec dims).snd := by
  rw [loadI64Vec_eq]
  simpa using loadAux_no_native dims 0

theorem toCudnnDataType_ok (dtype : Int)
    (h1 : CUDNN_DATA_FLOAT ≤ dtype) (h2 : dtype ≤ CUDNN_DATA_FAST_FLOAT_FOR_FP8) :
    ToCudnnDataType dtype = Except.ok dtype := by
  unfold ToCudnnDataType
  rw [if_neg]
  push_neg
  exact ⟨h1, h2⟩

theorem toCudnnDataType_error (dtype : Int)
    (h : dtype < CUDNN_DATA_FLOAT ∨ dtype > CUDNN_DATA_FAST_FLOAT_FOR_FP8) :
    ToCudnnDataType dtype =
      Except.error ⟨StatusCode.invalidArgument, "unsupported data type"⟩ := by
  unfold ToCudnnDataType
  rw [if_pos h]

theorem strides_foldl_length (dims : List Int) (idxs : List Nat) (init : List Int) :
    (idxs.foldl (fun s i => s.set i (dims.getD i 0 * s.getD (i + 1) 0)) init).length
      = init.length := by
  induction idxs generalizing init with
  | nil => rfl
  | cons j t ih => rw [List.foldl_cons, ih, List.length_set]

/-- Claim C1 (refuted, code bug): the strides computed by
`GetRowMajorStrides` do NOT satisfy the row-major rule
`S[i] = D[i+1] * S[i+1]` of the specification: for `D = [2, 3, 4]` the code
produces `[6, 3, 1]` (it multiplies by `dims[i]` instead of `dims[i+1]`),
while the row-major rule, stated verbatim as `specRowMajorStrides`,
yields `[12, 4, 1]`. -/
theorem getRowMajorStrides_is_not_row_major :
    GetRowMajorStrides [2, 3, 4] = [6, 3, 1] ∧
    specRowMajorStrides [2, 3, 4] = [12, 4, 1] ∧
    GetRowMajorStrides [2, 3, 4] ≠ specRowMajorStrides [2, 3, 4] :=
  ⟨by decide, by decide, by decide⟩

/-- Claim C2: for every dtype code outside the valid closed range,
`CreateTensorArg` returns the invalid-argument error carrying the message
"unsupported data type", with an empty event trace: in particular the native
tensor constructor is never invoked. -/
theorem createTensorArg_invalid_dtype (dtype : Int) (dims : List VmElem)
    (uid alignment : Int)
    (h : dtype < CUDNN_DATA_FLOAT ∨ dtype > CUDNN_DATA_FAST_FLOAT_FOR_FP8) :
    CreateTensorArg dtype dims uid alignment =
      (Except.error ⟨StatusCode.invalidArgument, "unsupported data type"⟩, []) ∧
    TensorEvent.nativeCreate ∉ (CreateTensorArg dtype dims uid alignment).snd := by
  have hd := toCudnnDataType_error dtype h
  have heq : CreateTensorArg dtype dims uid alignment =
      (Except.error ⟨StatusCode.invalidArgument, "unsupported data type"⟩, []) := by
    simp only [CreateTensorArg, hd]
  exact ⟨heq, by rw [heq]; simp⟩

/-- Witness for C2 at the concrete out-of-range dtype 999
(end-to-end scenario 2 of the spec). -/
theorem createTensorArg_invalid_dtype_witness :
    CreateTensorArg 999 [VmElem.i64 2, VmElem.i64 3, VmElem.i64 4] 7 16 =
      (Except.error ⟨StatusCode.invalidArgument, "unsupported data type"⟩, []) ∧
    TensorEvent.nativeCreate ∉
      (CreateTensorArg 999 [VmElem.i64 2, VmElem.i64 3, VmElem.i64 4] 7 16).snd :=
  createTensorArg_invalid_dtype 999 [VmElem.i64 2, VmElem.i64 3, VmElem.i64 4] 7 16
    (by decide)

/-- Claim C3: `GetRowMajorStrides` returns `[1]` for every single-element
dimension sequence, returns `[]` for the empty sequence, and always returns a
stride sequence of the same length as the input dimension sequence. -/
theorem getRowMajorStrides_degenerate :
    GetRowMajorStrides ([] : List Int) = [] ∧
    (∀ d : Int, GetRowMajorStrides [d] = [1]) ∧
    (∀ dims : List Int, (GetRowMajorStrides dims).length = dims.length) := by
  refine ⟨rfl, fun d => rfl, fun dims => ?_⟩
  unfold GetRowMajorStrides
  rw [strides_foldl_length, List.length_replicate]

/-- Claim C4: `RegisterType<T>` is idempotent.  If the descriptor is already
registered (non-null type id), the call returns ok, leaves the descriptor
untouched, and makes zero VM registration calls; if the descriptor is in the
null sentinel state, it populates the display name, counter offset and
destroy callback and makes exactly one VM registration call; and a second
call on the descriptor produced by any call is always a successful no-op. -/
theorem registerType_idempotent (T : TypeInfo) (d : TypeDescriptor)
    (name : String) :
    (d.type ≠ IREE_VM_REF_TYPE_NULL → RegisterType T d name = (okStatus, d, 0)) ∧
    (d.type = IREE_VM_REF_TYPE_NULL →
      RegisterType T d name =
        (okStatus,
         { type := 1, type_name := name, offsetof_counter := T.offsetof_counter,
           destroy := T.DirectDestroy }, 1)) ∧
    RegisterType T (RegisterType T d name).2.1 name =
      (okStatus, (RegisterType T d name).2.1, 0) := by
  by_cases hd : d.type = IREE_VM_REF_TYPE_NULL
  · refine ⟨fun hcontra => absurd hd hcontra, fun _ => ?_, ?_⟩
    · simp [RegisterType, iree_vm_ref_register_type, hd]
    · simp [RegisterType, iree_vm_ref_register_type, hd, IREE_VM_REF_TYPE_NULL]
  · refine ⟨fun _ => ?_, fun hcontra => absurd hcontra hd, ?_⟩
    · simp [RegisterType, hd]
    · simp [RegisterType, hd]

/-- Witness for C4: registering the `cudnn.tensor` descriptor from the null
sentinel state populates it and registers it once; the subsequent call (third
conjunct, instantiated by the theorem) is a no-op. -/
theorem registerType_idempotent_witness :
    RegisterType ⟨4, 7⟩ ⟨0, "", 0, 0⟩ "cudnn.tensor" =
      (okStatus, ⟨1, "cudnn.tensor", 4, 7⟩, 1) :=
  (registerType_idempotent ⟨4, 7⟩ ⟨0, "", 0, 0⟩ "cudnn.tensor").2.1 rfl

/-- Claim C5: across one module-state lifecycle, every successfully created
native handle is destroyed exactly once (the destructor issues one
`cudnnDestroy` on the owned handle and destroys no other handle), and a
failed creation attempt never leads to any destroy call. -/
theorem state_destroyed_exactly_once (sr cr : Except Status Nat) :
    (∀ s : CuDNNModuleState, (CreateState sr cr).fst = Except.ok s →
      List.count (LifeEvent.cudnnDestroy s.handle) (stateLifecycle sr cr) = 1 ∧
      ∀ h : Nat, h ≠ s.handle →
        LifeEvent.cudnnDestroy h ∉ stateLifecycle sr cr) ∧
    (∀ e : Status, (CreateState sr cr).fst = Except.error e →
      ∀ h : Nat, LifeEvent.cudnnDestroy h ∉ stateLifecycle sr cr) := by
  cases sr with
  | error e0 =>
    refine ⟨fun s hs => ?_, fun e he h => ?_⟩
    · simp [CreateState] at hs
    · simp [stateLifecycle, CreateState]
  | ok sy =>
    cases cr with
    | error e0 =>
      refine ⟨fun s hs => ?_, fun e he h => ?_⟩
      · simp [CreateState] at hs
      · simp [stateLifecycle, CreateState]
    | ok hd =>
      refine ⟨fun s hs => ?_, fun e he h => ?_⟩
      · have hs2 : s = ⟨sy, hd⟩ := by
          have : Except.ok (⟨sy, hd⟩ : CuDNNModuleState) = Except.ok s := hs
          exact (Except.ok.inj this).symm
        subst hs2
        constructor
        · simp [stateLifecycle, CreateState, CuDNNModuleState.destructor,
            List.count_cons]
        · intro h hne
          simp [stateLifecycle, CreateState, CuDNNModuleState.destructor, hne]
      · simp [CreateState] at he

/-- Witness for C5: with symbol loading succeeding (syms id 1) and
`cudnnCreate` producing handle 2, the lifecycle trace contains exactly one
`cudnnDestroy` of handle 2. -/
theorem state_destroyed_exactly_once_witness :
    List.count (LifeEvent.cudnnDestroy 2)
      (stateLifecycle (Except.ok 1) (Except.ok 2)) = 1 :=
  ((state_destroyed_exactly_once (Except.ok 1) (Except.ok 2)).1 ⟨1, 2⟩ rfl).1

/-- Claim C6: when dynamic-symbol loading fails with status `e`,
`CreateState` returns exactly that status, attempts no `cudnnCreate` call,
and constructs no module state. -/
theorem createState_syms_failure (e : Status) (cr : Except Status Nat) :
    CreateState (Except.error e) cr = (Except.error e, [LifeEvent.symsInit]) ∧
    LifeEvent.cudnnCreate ∉ (CreateState (Except.error e) cr).snd ∧
    ∀ s : CuDNNModuleState, (CreateState (Except.error e) cr).fst ≠ Except.ok s := by
  refine ⟨rfl, by simp [CreateState], fun s => by simp [CreateState]⟩

/-- Claim C7: with a valid dtype, if the dims list contains an element that
is not readable as a 64-bit integer, `CreateTensorArg` returns exactly the
error produced by the underlying list access (an invalid-argument status),
and the native tensor constructor is never invoked. -/
theorem createTensorArg_propagates_dims_error (dtype : Int)
    (dims : List VmElem) (uid alignment : Int)
    (hdt1 : CUDNN_DATA_FLOAT ≤ dtype)
    (hdt2 : dtype ≤ CUDNN_DATA_FAST_FLOAT_FOR_FP8)
    (h : VmElem.ref ∈ dims) :
    (LoadI64Vec dims).fst =
      Except.error ⟨StatusCode.invalidArgument, "element is not a value type"⟩ ∧
    (CreateTensorArg dtype dims uid alignment).fst =
      Except.error ⟨StatusCode.invalidArgument, "element is not a value type"⟩ ∧
    TensorEvent.nativeCreate ∉ (CreateTensorArg dtype dims uid alignment).snd := by
  have hok := toCudnnDataType_ok dtype hdt1 hdt2
  have hload := loadI64Vec_ref_error dims h
  have hnn := loadI64Vec_no_native dims
  rcases hx : LoadI64Vec dims with ⟨r, tr⟩
  rw [hx] at hload hnn
  simp only at hload hnn
  subst hload
  have heq : CreateTensorArg dtype dims uid alignment =
      (Except.error ⟨StatusCode.invalidArgument, "element is not a value type"⟩,
       tr) := by
    simp only [CreateTensorArg, hok, hx]
  exact ⟨rfl, by rw [heq], by rw [heq]; exact hnn⟩

/-- Witness for C7: with valid dtype 0 and a dims list whose second element
is not an integer, the call fails with the list-access error and the trace
holds no native-constructor event (end-to-end scenario 3 of the spec). -/
theorem createTensorArg_propagates_dims_error_witness :
    (LoadI64Vec [VmElem.i64 2, VmElem.ref]).fst =
      Except.error ⟨StatusCode.invalidArgument, "element is not a value type"⟩ ∧
    (CreateTensorArg 0 [VmElem.i64 2, VmElem.ref] 7 16).fst =
      Except.error ⟨StatusCode.invalidArgument, "element is not a value type"⟩ ∧
    TensorEvent.nativeCreate ∉
      (CreateTensorArg 0 [VmElem.i64 2, VmElem.ref] 7 16).snd :=
  createTensorArg_propagates_dims_error 0 [VmElem.i64 2, VmElem.ref] 7 16
    (by decide) (by decide) (by decide)

/-- Claim C8: for every well-typed argument-kind tensor,
`PrintTensorDebug` returns the ok status and its only effect is a single
stderr write of the one-line description of the tensor. -/
theorem printTensorDebug_never_fails (t : CuDNNArgTensor) :
    (PrintTensorDebug t).fst = okStatus ∧
    (PrintTensorDebug t).snd =
      ["CuDNNArgTensor: " ++ CuDNNArgTensor.describe t ++ "\n"] ∧
    (PrintTensorDebug t).snd.length = 1 :=
  ⟨rfl, rfl, rfl⟩

/-- Claim C9: dtype validation strictly precedes any access to the dims
list: for every out-of-range dtype and every dims list (malformed ones
included) the call fails with invalid-argument and the event trace is empty,
so no list-size query and no element access occur. -/
theorem createTensorArg_dtype_checked_first (dtype : Int) (dims : List VmElem)
    (uid alignment : Int)
    (h : dtype < CUDNN_DATA_FLOAT ∨ dtype > CUDNN_DATA_FAST_FLOAT_FOR_FP8) :
    (CreateTensorArg dtype dims uid alignment).fst =
      Except.error ⟨StatusCode.invalidArgument, "unsupported data type"⟩ ∧
    (CreateTensorArg dtype dims uid alignment).snd = [] ∧
    TensorEvent.listSize ∉ (CreateTensorArg dtype dims uid alignment).snd ∧
    ∀ i : Nat, TensorEvent.listRead i ∉ (CreateTensorArg dtype dims uid alignment).snd := by
  have hd := toCudnnDataType_error dtype h
  have heq : CreateTensorArg dtype dims uid alignment =
      (Except.error ⟨StatusCode.invalidArgument, "unsupported data type"⟩, []) := by
    simp only [CreateTensorArg, hd]
  rw [heq]
  exact ⟨rfl, rfl, by simp, fun i => by simp⟩

/-- Witness for C9: dtype -1 with a malformed (non-integer) dims list still
produces the invalid-argument error with an empty event trace. -/
theorem createTensorArg_dtype_checked_first_witness :
    (CreateTensorArg (-1) [VmElem.ref] 7 16).fst =
      Except.error ⟨StatusCode.invalidArgument, "unsupported data type"⟩ ∧
    (CreateTensorArg (-1) [VmElem.ref] 7 16).snd = [] ∧
    TensorEvent.listSize ∉ (CreateTensorArg (-1) [VmElem.ref] 7 16).snd ∧
    ∀ i : Nat, TensorEvent.listRead i ∉ (CreateTensorArg (-1) [VmElem.ref] 7 16).snd :=
  createTensorArg_dtype_checked_first (-1) [VmElem.ref] 7 16 (by decide)

/-- Claim C10: for every VM list all of whose elements are readable as
64-bit integers, `LoadI64Vec` succeeds with the elementwise-coerced vector
(so its length equals the list size and its i-th entry is the i-th element's
value), reading the elements in ascending index order after one size query;
and for a list whose first unreadable element sits at index `j`, it returns
exactly the error of the underlying access of element `j`. -/
theorem loadI64Vec_spec :
    (∀ list : List VmElem, (∀ e ∈ list, VmElem.isI64 e = true) →
      (LoadI64Vec list).fst = Except.ok (list.map VmElem.val) ∧
      (list.map VmElem.val).length = iree_vm_list_size list ∧
      (LoadI64Vec list).snd =
        TensorEvent.listSize ::
          (List.range' 0 list.length).map TensorEvent.listRead) ∧
    (∀ (list : List VmElem) (j : Nat) (s : Status),
      (list.take j).all VmElem.isI64 = true →
      iree_vm_list_get_value_as list j = Except.error s →
      j < iree_vm_list_size list →
      (LoadI64Vec list).fst = Except.error s) := by
  constructor
  · intro list hall
    have h := loadAux_all_ok list 0 hall
    rw [loadI64Vec_eq, h]
    exact ⟨rfl, by simp [iree_vm_list_size], rfl⟩
  · intro list j s htake hget hlt
    rw [iree_vm_list_size] at hlt
    obtain ⟨e, he⟩ : ∃ e, list[j]? = some e := by
      have := List.getElem?_eq_getElem hlt
      exact ⟨list[j], this⟩
    have hread : VmElem.readAsI64 e = Except.error s := by
      rw [iree_vm_list_get_value_as, he] at hget
      exact hget
    rw [loadI64Vec_eq]
    exact loadAux_first_error list 0 j e s htake he hread

/-- Witness for C10 on the all-readable list `[2, 3, 4]`: the loaded vector
is `[2, 3, 4]` and the accesses are the size query followed by reads of
indices 0, 1, 2 in order. -/
theorem loadI64Vec_spec_witness :
    (LoadI64Vec [VmElem.i64 2, VmElem.i64 3, VmElem.i64 4]).fst =
      Except.ok [2, 3, 4] ∧
    (LoadI64Vec [VmElem.i64 2, VmElem.i64 3, VmElem.i64 4]).snd =
      [TensorEvent.listSize, TensorEvent.listRead 0, TensorEvent.listRead 1,
       TensorEvent.listRead 2] := by
  have h := loadI64Vec_spec.1 [VmElem.i64 2, VmElem.i64 3, VmElem.i64 4]
    (by decide)
  refine ⟨h.1, ?_⟩
  rw [h.2.2]
  rfl
